import Mathlib

/-!
Shallow embedding of the descartes.legacy data-collection core:
the ServiceNow incremental reader (`sources/snow/snow_data_reader.go`)
and the collect-service orchestration (`services/collect_service.go`).
Pure functions mirror the Go functions; external collaborators (HTTP
fetch, Kafka writer, checkpoint store) are passed in as explicit
outcome parameters; Go panics (failed type assertions) are modelled as
a distinguished `panicked` outcome.
-/

/-- Calendar timestamp in the shape produced by parsing a string against
the Go layout `"2006-01-02 15:04:05"` (the reader's `timeTemplate`). -/
structure SnowTime where
  year : Nat
  month : Nat
  day : Nat
  hour : Nat
  minute : Nat
  second : Nat
deriving DecidableEq, Repr

def isLeapYear (y : Nat) : Bool :=
  y % 4 = 0 && (y % 100 != 0 || y % 400 = 0)

def daysInMonth (y m : Nat) : Nat :=
  if m = 2 then (if isLeapYear y then 29 else 28)
  else if m = 4 || m = 6 || m = 9 || m = 11 then 30
  else 31

/-- One second of Go `time.Time.Add(time.Second)`, with calendar carry. -/
def addOneSecond (d : SnowTime) : SnowTime :=
  if d.second + 1 ≤ 59 then { d with second := d.second + 1 }
  else if d.minute + 1 ≤ 59 then { d with second := 0, minute := d.minute + 1 }
  else if d.hour + 1 ≤ 23 then { d with second := 0, minute := 0, hour := d.hour + 1 }
  else if d.day + 1 ≤ daysInMonth d.year d.month then
    { d with second := 0, minute := 0, hour := 0, day := d.day + 1 }
  else if d.month + 1 ≤ 12 then
    { d with second := 0, minute := 0, hour := 0, day := 1, month := d.month + 1 }
  else
    { d with second := 0, minute := 0, hour := 0, day := 1, month := 1, year := d.year + 1 }

def digitVal (c : Char) : Option Nat :=
  if c.isDigit then some (c.toNat - 48) else none

def num2 (a b : Char) : Option Nat := do
  let x ← digitVal a
  let y ← digitVal b
  pure (10 * x + y)

def num4 (a b c d : Char) : Option Nat := do
  let x ← num2 a b
  let y ← num2 c d
  pure (100 * x + y)

/-- Go `time.Parse` against the fixed template `"2006-01-02 15:04:05"`:
four-digit year, zero-padded two-digit fields, with range validation
(month 1-12, day within the month, hour below 24, minute and second
below 60); anything else is a parse error. -/
def parseTime (s : String) : Option SnowTime :=
  match s.toList with
  | [y1, y2, y3, y4, c1, m1, m2, c2, d1, d2, c3, h1, h2, c4, n1, n2, c5, s1, s2] =>
    if c1 = '-' && c2 = '-' && c3 = ' ' && c4 = ':' && c5 = ':' then
      match num4 y1 y2 y3 y4, num2 m1 m2, num2 d1 d2, num2 h1 h2, num2 n1 n2, num2 s1 s2 with
      | some y, some mo, some da, some h, some mi, some se =>
        if 1 ≤ mo && mo ≤ 12 && 1 ≤ da && da ≤ daysInMonth y mo
            && h ≤ 23 && mi ≤ 59 && se ≤ 59 then
          some ⟨y, mo, da, h, mi, se⟩
        else none
      | _, _, _, _, _, _ => none
    else none
  | _ => none

def pad2 (n : Nat) : String := if n < 10 then "0" ++ toString n else toString n

def pad4 (n : Nat) : String :=
  if n < 10 then "000" ++ toString n
  else if n < 100 then "00" ++ toString n
  else if n < 1000 then "0" ++ toString n
  else toString n

/-- Go `time.Time.Format` with the same fixed template. -/
def formatTime (d : SnowTime) : String :=
  pad4 d.year ++ "-" ++ pad2 d.month ++ "-" ++ pad2 d.day ++ " " ++
  pad2 d.hour ++ ":" ++ pad2 d.minute ++ ":" ++ pad2 d.second

def natOfDigitsAux : List Char → Nat → Option Nat
  | [], acc => some acc
  | c :: rest, acc =>
    match digitVal c with
    | some d => natOfDigitsAux rest (acc * 10 + d)
    | none => none

/-- Go `strconv.Atoi`: an optional sign followed by at least one digit;
any other input is a syntax error (the Go call sites discard the error
and keep the accompanying zero value). -/
def atoi (s : String) : Option Int :=
  match s.toList with
  | [] => none
  | '+' :: rest =>
    match rest with
    | [] => none
    | _ => (natOfDigitsAux rest 0).map Int.ofNat
  | '-' :: rest =>
    match rest with
    | [] => none
    | _ => (natOfDigitsAux rest 0).map (fun n => -(Int.ofNat n))
  | cs => (natOfDigitsAux cs 0).map Int.ofNat

/-- JSON leaf value as it appears after Go `json` unmarshalling into
`interface\x7b\x7d`; `null` also stands for the nil interface read from a
missing map key, so a lookup of an absent field and an explicit JSON
null are indistinguishable, exactly as in Go. -/
inductive JValue where
  | str (s : String)
  | num (n : Int)
  | null
deriving DecidableEq, Repr

/-- One element of the `records` array: either a JSON object
(`map[string]interface\x7b\x7d`) or some other JSON value, which fails the
Go type assertion to a map. -/
inductive JItem where
  | obj (fields : List (String × JValue))
  | nonobj
deriving DecidableEq, Repr

/-- Go map read `r[k]`: the stored value, or the nil interface. -/
def jlookup (fields : List (String × JValue)) (k : String) : JValue :=
  match fields.lookup k with
  | some v => v
  | none => .null

/-- Go comma-ok string assertion `v.(string)`: zero value on failure. -/
def goAsString (v : JValue) : String :=
  match v with
  | .str s => s
  | _ => ""

/-- Go unchecked string assertion `v.(string)`: `none` models the panic. -/
def goAssertString (v : JValue) : Option String :=
  match v with
  | .str s => some s
  | _ => none

/-- Go `map[string]string` (`base.BaseConfig` and friends). -/
abbrev GoStrMap := List (String × String)

/-- Go string-map read with the zero value for a missing key. -/
def mlookup (m : GoStrMap) (k : String) : String := (m.lookup k).getD ""

def hasKey (m : GoStrMap) (k : String) : Bool := (m.lookup k).isSome

def endpointKey : String := "Endpoint"

def timestampFieldKey : String := "TimestampField"

def nextRecordTimeKey : String := "NextRecordTime"

def recordCountKey : String := "RecordCount"

/-- The reader's checkpoint record (`collectionState`). -/
structure CollectionState where
  Version : String
  NextRecordTime : String
  LastTimeRecords : List String
deriving DecidableEq, Repr

/-- The pure data of a `SnowDataReader`: its configuration and the
mutable fields the modelled methods read and write. -/
structure SnowReader where
  additionalConfig : GoStrMap
  state : CollectionState
  collecting : Bool
  started : Bool
deriving Repr

/-- `NewSnowDataReader`: nil unless `Endpoint`, `TimestampField` and
`NextRecordTime` are all present in the additional configuration; the
mutable fields start from their Go zero values. -/
def NewSnowDataReader (config : GoStrMap) : Option SnowReader :=
  if hasKey config endpointKey && hasKey config timestampFieldKey
      && hasKey config nextRecordTimeKey then
    some ⟨config, ⟨"", "", []⟩, false, false⟩
  else none

/-- `getCheckpoint`: trust the in-memory cache when its
`NextRecordTime` is non-empty, otherwise reload from the durable store
(`stored = none` folds together an absent blob, a store read error and
an unmarshalling error, all of which return nil in Go). Returns the
checkpoint handed to the caller and the cache afterwards. -/
def getCheckpoint (state : CollectionState) (stored : Option CollectionState) :
    Option CollectionState × CollectionState :=
  if state.NextRecordTime ≠ "" then (some state, state)
  else
    match stored with
    | none => (none, state)
    | some ck => (some ck, ck)

def replaceFirstSpace : List Char → List Char
  | [] => []
  | c :: rest => if c = ' ' then '+' :: rest else c :: replaceFirstSpace rest

/-- `getNextRecordTime`: consult the checkpoint, fall back to the
configured initial `NextRecordTime` when there is none, and return the
cursor with its first space URL-escaped, together with the cache
afterwards. -/
def getNextRecordTime (config : GoStrMap) (state : CollectionState)
    (stored : Option CollectionState) : String × CollectionState :=
  let r := getCheckpoint state stored
  let state2 :=
    if r.1.isNone then { r.2 with NextRecordTime := mlookup config nextRecordTimeKey }
    else r.2
  (String.mk (replaceFirstSpace state2.NextRecordTime.toList), state2)

/-- `getURL`: the poll URL built from the server URL, endpoint,
timestamp field, current cursor and the raw `RecordCount` string. -/
def getURL (serverURL : String) (config : GoStrMap) (state : CollectionState)
    (stored : Option CollectionState) : String × CollectionState :=
  let r := getNextRecordTime config state stored
  (serverURL ++ "/" ++ mlookup config endpointKey ++ ".do?JSONv2&sysparm_query=" ++
     mlookup config timestampFieldKey ++ ">=" ++ r.1 ++ "^ORDERBY" ++
     mlookup config timestampFieldKey ++ "&sysparm_record_count=" ++
     mlookup config recordCountKey,
   r.2)

/-- `doRemoveRecords`: walk the page in order; a non-object record
fails the map assertion and is skipped; an object whose timestamp field
equals `lastRecordTime` and whose `sys_id` (comma-ok string, so the
empty string when missing or not a string) is among `lastTimeRecords`
is dropped; every other record is kept in order. -/
def doRemoveRecords (timefield : String) (records : List JItem)
    (lastTimeRecords : List String) (lastRecordTime : String) : List JItem :=
  match records with
  | [] => []
  | .nonobj :: rest => doRemoveRecords timefield rest lastTimeRecords lastRecordTime
  | .obj r :: rest =>
    if jlookup r timefield = .str lastRecordTime then
      if goAsString (jlookup r "sys_id") ∈ lastTimeRecords then
        doRemoveRecords timefield rest lastTimeRecords lastRecordTime
      else .obj r :: doRemoveRecords timefield rest lastTimeRecords lastRecordTime
    else .obj r :: doRemoveRecords timefield rest lastTimeRecords lastRecordTime

/-- Outcome of `removeCollectedRecords`: the records to index, the
refresh flag and the in-memory state afterwards, or a panic from the
unchecked map assertions on the first and last record of a full page. -/
inductive RemOut where
  | panicked
  | ok (toIndex : List JItem) (refreshed : Bool) (state : CollectionState)
deriving DecidableEq, Repr

/-- `removeCollectedRecords`: pass the page through untouched when
there is no checkpoint, its `LastTimeRecords` is empty or the page is
empty; otherwise dedup against the checkpoint, and when the page is
exactly `RecordCount` long (Atoi of the raw config string, zero on
error) with first and last record sharing a timestamp, parse the
checkpoint cursor — returning nil and no refresh on a parse error — and
otherwise advance the cached cursor by one second, clear its
`LastTimeRecords` and report `refreshed`. -/
def removeCollectedRecords (config : GoStrMap) (state : CollectionState)
    (stored : Option CollectionState) (records : List JItem) : RemOut :=
  let r := getCheckpoint state stored
  match r.1 with
  | none => .ok records false r.2
  | some ck =>
    if ck.LastTimeRecords.length = 0 || records.length = 0 then .ok records false r.2
    else
      let lastRecordTime := ck.NextRecordTime
      let toIndex := doRemoveRecords (mlookup config timestampFieldKey) records
          ck.LastTimeRecords lastRecordTime
      let recordCount : Int := (atoi (mlookup config recordCountKey)).getD 0
      if (records.length : Int) = recordCount then
        match records.head?, records.getLast? with
        | some (.obj firstRecord), some (.obj lastRecord) =>
          if jlookup firstRecord (mlookup config timestampFieldKey)
              = jlookup lastRecord (mlookup config timestampFieldKey) then
            match parseTime lastRecordTime with
            | none => .ok [] false r.2
            | some t =>
              .ok toIndex true
                { r.2 with NextRecordTime := formatTime (addOneSecond t),
                           LastTimeRecords := [] }
          else .ok toIndex false r.2
        | _, _ => .panicked
      else .ok toIndex false r.2

/-- The backward scan of `writeCheckpoint` over the reversed record
list: collect the `sys_id` of every trailing record whose timestamp
field equals `lastTs`, stopping at the first mismatch; `none` models
the panic of the unchecked assertions (a non-object record, or a
`sys_id` that is not a string). -/
def goMaxTsLoop (timefield : String) (lastTs : JValue) : List JItem → Option (List String)
  | [] => some []
  | .nonobj :: _ => none
  | .obj r :: rest =>
    if jlookup r timefield = lastTs then
      match jlookup r "sys_id" with
      | .str s => (goMaxTsLoop timefield lastTs rest).map (fun l => s :: l)
      | _ => none
    else some []

/-- Outcome of `writeCheckpoint`: error flag, the blob durably written
this call (none when nothing was written), and the in-memory state
afterwards; or a panic from the unchecked assertions. -/
inductive WcOut where
  | panicked
  | ok (isErr : Bool) (written : Option CollectionState) (state : CollectionState)
deriving DecidableEq, Repr

/-- `writeCheckpoint`: no-op on an empty list; otherwise compute the
next checkpoint from the records it is given — cursor = the last
record's timestamp (comma-ok map assertion, so a nil map when the last
record is not an object), `LastTimeRecords` = the backward scan — then
write it durably (`ckWriteFails` injects the store's answer; marshal of
this struct cannot fail in Go) and, only when the write succeeded and
the cycle was not refreshed, install it as the in-memory state. -/
def writeCheckpoint (config : GoStrMap) (records : List JItem) (refreshed : Bool)
    (ckWriteFails : Bool) (state : CollectionState) : WcOut :=
  if records.length = 0 then .ok false none state
  else
    let timefield := mlookup config timestampFieldKey
    let lastFields :=
      match records.getLast? with
      | some (.obj r) => r
      | _ => []
    let lastTs := jlookup lastFields timefield
    match goMaxTsLoop timefield lastTs records.reverse with
    | none => .panicked
    | some maxIds =>
      match lastTs with
      | .str ts =>
        if ckWriteFails then .ok true none state
        else .ok false (some ⟨"1", ts, maxIds⟩) (if refreshed then state else ⟨"1", ts, maxIds⟩)
      | _ => .panicked

/-- The JSON object parsed from the source's response body: the
`records` key when present as an array, and whether an `error` key is
present (a `records` key of any other type fails the comma-ok array
assertion, which behaves like an absent key). -/
structure SnowJsonObj where
  records : Option (List JItem)
  hasError : Bool
deriving DecidableEq, Repr

/-- The decompressed response body, as the later JSON parse sees it
(`none` models a `ToJsonObject` failure). -/
structure SnowPayload where
  json : Option SnowJsonObj
deriving DecidableEq, Repr

/-- What the external source does when the reader actually polls it:
any transport, gzip or read error, or a body. -/
inductive FetchResult where
  | fail
  | ok (body : SnowPayload)
deriving DecidableEq, Repr

/-- Observable outcome of one `CollectData` call: the body and error it
returns, the collecting flag after the call, whether the network fetch
was performed, and the in-memory state afterwards (`getURL`, called on
every path, may populate the checkpoint cache). -/
structure CollectOut where
  body : Option SnowPayload
  isErr : Bool
  collectingAfter : Bool
  fetched : Bool
  state : CollectionState
deriving Repr

/-- `CollectData`: when the compare-and-swap on `collecting` fails (a
poll is already in flight) return nil data and nil error without
fetching, leaving the flag held; otherwise fetch one page, resetting
the flag on completion via the deferred store. The only state effect of
`getURL` is `getNextRecordTime`'s cache population. -/
def CollectData (config : GoStrMap) (state : CollectionState)
    (stored : Option CollectionState) (collecting : Bool) (fetch : FetchResult) :
    CollectOut :=
  let st1 := (getNextRecordTime config state stored).2
  if collecting then ⟨none, false, true, false, st1⟩
  else
    match fetch with
    | .fail => ⟨none, true, false, true, st1⟩
    | .ok body => ⟨some body, false, false, true, st1⟩

/-- Outcome of one `IndexData` poll cycle: whether it returned an
error, the records handed to the downstream writer, the checkpoint blob
durably written, and the in-memory state afterwards; or a panic. -/
inductive IdxOut where
  | panicked
  | done (isErr : Bool) (emitted : List JItem) (written : Option CollectionState)
      (state : CollectionState)
deriving DecidableEq, Repr

def JItem.isNonobj : JItem → Bool
  | .obj _ => false
  | .nonobj => true

/-- `IndexData`: collect one page (nil data — from a busy guard or a
fetch error — returns the fetch error, which may be nil); parse it;
on a `records` array run `removeCollectedRecords`, format each record
for the writer (an unchecked map assertion that panics on a non-object
record), and when anything is left write it downstream (`writerFails`
injects the writer's answer) and then write the checkpoint; on an
`error` payload return an error; otherwise return nil. -/
def IndexData (config : GoStrMap) (state : CollectionState)
    (stored : Option CollectionState) (collecting : Bool) (fetch : FetchResult)
    (writerFails : Bool) (ckWriteFails : Bool) : IdxOut :=
  let c := CollectData config state stored collecting fetch
  match c.body with
  | none => .done c.isErr [] none c.state
  | some payload =>
    match payload.json with
    | none => .done true [] none c.state
    | some jobj =>
      match jobj.records with
      | some records =>
        match removeCollectedRecords config c.state stored records with
        | .panicked => .panicked
        | .ok toIndex refreshed state1 =>
          if toIndex.any JItem.isNonobj then .panicked
          else if 0 < toIndex.length then
            if writerFails then .done true [] none state1
            else
              match writeCheckpoint config toIndex refreshed ckWriteFails state1 with
              | .panicked => .panicked
              | .ok e written state2 => .done e toIndex written state2
          else .done false [] none state1
      | none =>
        if jobj.hasError then .done true [] none c.state
        else .done false [] none c.state

/-- Modelled from the spec: the key constants of the `base` package
(not under src); the spec calls them the task's host-affinity marker,
application-type key and task-identity key. Their literal values are
unknown; only their role as distinct map keys matters. -/
def baseHost : String := "Host"

def baseApp : String := "App"

def taskConfigKey : String := "TaskConfig"

/-- Modelled from the spec: the coordination-service path root
`base.HeartbeatRoot` (not under src). -/
def heartbeatRoot : String := "HeartbeatRoot"

/-- One heartbeat payload `\x7bhost, platform, app, cpuCount, timestamp\x7d`. -/
structure HeartbeatRecord where
  host : String
  platform : String
  app : String
  cpuCount : String
  timestamp : String
deriving DecidableEq, Repr

/-- `doHeartbeatsThroughZooKeeper`: a single pass — one timestamp, then
one ephemeral, overwriting `CreateNode` per active application at
`HeartbeatRoot/host!app` — after which the function returns; there is
no ticker and no loop in this transport. -/
def doHeartbeatsThroughZooKeeper (host platform cpuCount now : String)
    (apps : List String) : List (String × HeartbeatRecord) :=
  apps.map (fun app =>
    (heartbeatRoot ++ "/" ++ host ++ "!" ++ app,
     ⟨host, platform, app, cpuCount, now⟩))

/-- The ticker loop of `doHeartBeatsThroughKafka`: for each tick
observed while the service is started, one record per active
application, in order. -/
def kafkaHeartbeatLoop (host platform cpuCount : String) (apps : List String) :
    List String → List HeartbeatRecord
  | [] => []
  | now :: rest =>
    apps.map (fun app => ⟨host, platform, app, cpuCount, now⟩) ++
      kafkaHeartbeatLoop host platform cpuCount apps rest

/-- One full run of the Kafka heartbeat transport: whether its
dedicated writer was started, the records published over the run, and
whether the deferred `writer.Stop` ran on exit. -/
structure KafkaHbRun where
  writerStarted : Bool
  records : List HeartbeatRecord
  writerStopped : Bool
deriving DecidableEq, Repr

/-- `doHeartBeatsThroughKafka`: create and start a dedicated writer,
publish one record per application on every tick observed before the
stop flag, and stop the writer on exit (`ticks` lists the tick
timestamps delivered while the service was started). -/
def doHeartBeatsThroughKafka (host platform cpuCount : String) (apps : List String)
    (ticks : List String) : KafkaHbRun :=
  ⟨true, kafkaHeartbeatLoop host platform cpuCount apps ticks, true⟩

/-- Result of one `doHeartbeats` dispatch. -/
inductive HbRun where
  | zk (creates : List (String × HeartbeatRecord))
  | kafka (run : KafkaHbRun)
deriving DecidableEq, Repr

/-- `doHeartbeats`: any configured heartbeat transport other than
`"kafka"` selects the ZooKeeper single pass; `"kafka"` selects the
ticker loop. -/
def doHeartbeats (heartbeatCfg : String) (host platform cpuCount now : String)
    (apps : List String) (ticks : List String) : HbRun :=
  if heartbeatCfg ≠ "kafka" then
    .zk (doHeartbeatsThroughZooKeeper host platform cpuCount now apps)
  else .kafka (doHeartBeatsThroughKafka host platform cpuCount apps ticks)

/-- One task batch as `handleTasks` receives it: the envelope's meta
info and the raw records, each either a decoded `map[string]string` or
`none` for a JSON unmarshalling failure. -/
structure TaskData where
  metaInfo : GoStrMap
  rawData : List (Option GoStrMap)
deriving Repr

/-- Observable state of the collect service across `handleTasks`: the
job cache keyed by task identity, the jobs started, and the `Callback`
invocations in order (jobs are named by the id the factory returns). -/
structure CsState where
  jobs : List (String × Nat)
  startedJobs : List Nat
  callbacks : List Nat
deriving DecidableEq, Repr

/-- The record loop of `handleTasks`: a record that fails to unmarshal
or lacks the application-type key is skipped with `continue`; a host
mismatch returns; a cached task identity gets another `Callback`; a
cache miss asks the factory — a nil job RETURNS from `handleTasks`,
abandoning the remaining records of the batch — and otherwise caches,
starts and calls back the new job. -/
def handleTasksLoop (createJob : String → GoStrMap → Option Nat) (host : String)
    (metaHost : String) : List (Option GoStrMap) → CsState → CsState
  | [], st => st
  | none :: rest, st => handleTasksLoop createJob host metaHost rest st
  | some tc :: rest, st =>
    if hasKey tc baseApp = false then handleTasksLoop createJob host metaHost rest st
    else if metaHost ≠ host then st
    else
      let key := mlookup tc taskConfigKey
      match st.jobs.lookup key with
      | some j =>
        handleTasksLoop createJob host metaHost rest
          { st with callbacks := st.callbacks ++ [j] }
      | none =>
        match createJob (mlookup tc baseApp) tc with
        | none => st
        | some j =>
          handleTasksLoop createJob host metaHost rest
            { jobs := st.jobs ++ [(key, j)],
              startedJobs := st.startedJobs ++ [j],
              callbacks := st.callbacks ++ [j] }

/-- `handleTasks`: reject a batch whose meta info lacks the host key,
then run the record loop. -/
def handleTasks (createJob : String → GoStrMap → Option Nat) (host : String)
    (data : TaskData) (st : CsState) : CsState :=
  if hasKey data.metaInfo baseHost = false then st
  else handleTasksLoop createJob host (mlookup data.metaInfo baseHost) data.rawData st

/-- A source record carrying exactly a string ID `p.1` in `sys_id` and
a string timestamp `p.2` in the configured timestamp field, the shape
the spec's data model requires of every record. -/
def mkRecord (timefield : String) (p : String × String) : JItem :=
  .obj [("sys_id", .str p.1), (timefield, .str p.2)]

theorem jlookup_mk_id (timefield : String) (p : String × String) :
    jlookup [("sys_id", .str p.1), (timefield, .str p.2)] "sys_id" = .str p.1 := by
  simp [jlookup, List.lookup]

theorem jlookup_mk_tf (timefield : String) (p : String × String)
    (h : timefield ≠ "sys_id") :
    jlookup [("sys_id", .str p.1), (timefield, .str p.2)] timefield = .str p.2 := by
  simp [jlookup, List.lookup, beq_eq_false_iff_ne.mpr h]

theorem jlookup_mk_tf_str (timefield : String) (p : String × String) :
    ∃ v : String, jlookup [("sys_id", .str p.1), (timefield, .str p.2)] timefield = .str v := by
  by_cases h : timefield = "sys_id"
  · subst h
    exact ⟨p.1, jlookup_mk_id _ p⟩
  · exact ⟨p.2, jlookup_mk_tf _ p h⟩

theorem getLast?_map_list {α β : Type} (f : α → β) (l : List α) :
    (l.map f).getLast? = l.getLast?.map f := by
  induction l with
  | nil => rfl
  | cons a rest ih =>
    cases rest with
    | nil => rfl
    | cons b rest2 => simpa using ih

theorem cons_getLast?_some {α : Type} (p : α) (rest : List α) :
    ∃ lp, (p :: rest).getLast? = some lp := by
  induction rest generalizing p with
  | nil => exact ⟨p, rfl⟩
  | cons b rest2 ih =>
    obtain ⟨lp, hlp⟩ := ih b
    exact ⟨lp, by simpa using hlp⟩

theorem kafkaHeartbeatLoop_length (host platform cpuCount : String)
    (apps : List String) (ticks : List String) :
    (kafkaHeartbeatLoop host platform cpuCount apps ticks).length =
      ticks.length * apps.length := by
  induction ticks with
  | nil => simp [kafkaHeartbeatLoop]
  | cons now rest ih =>
    simp [kafkaHeartbeatLoop, ih, Nat.succ_mul, Nat.add_comm]

/-- C6: a `CollectData` call that finds the collecting guard already
held performs no network fetch and returns nil data and nil error,
leaving the guard held; a call that wins the compare-and-swap performs
the fetch and has released the guard on completion. -/
theorem collect_busy_noop (config : GoStrMap) (state : CollectionState)
    (stored : Option CollectionState) (fetch : FetchResult) :
    (CollectData config state stored true fetch).body = none ∧
    (CollectData config state stored true fetch).isErr = false ∧
    (CollectData config state stored true fetch).fetched = false ∧
    (CollectData config state stored true fetch).collectingAfter = true ∧
    (CollectData config state stored false fetch).fetched = true ∧
    (CollectData config state stored false fetch).collectingAfter = false := by
  cases fetch <;> simp [CollectData]

/-- C8 (amended): the Kafka heartbeat transport starts its dedicated
writer, publishes exactly one record per active application per tick
observed before the stop signal, and stops the writer on exit; the
ZooKeeper transport publishes exactly one ephemeral node per active
application in a single pass and terminates, so its output does not
depend on how many ticks elapse. -/
theorem heartbeat_modes_behavior (host platform cpuCount now : String)
    (apps : List String) (ticks ticks2 : List String) :
    (doHeartBeatsThroughKafka host platform cpuCount apps ticks).records.length =
      ticks.length * apps.length ∧
    (doHeartBeatsThroughKafka host platform cpuCount apps ticks).writerStarted = true ∧
    (doHeartBeatsThroughKafka host platform cpuCount apps ticks).writerStopped = true ∧
    (doHeartbeatsThroughZooKeeper host platform cpuCount now apps).length = apps.length ∧
    doHeartbeats "zookeeper" host platform cpuCount now apps ticks =
      doHeartbeats "zookeeper" host platform cpuCount now apps ticks2 := by
  refine ⟨kafkaHeartbeatLoop_length host platform cpuCount apps ticks, rfl, rfl, ?_, rfl⟩
  simp [doHeartbeatsThroughZooKeeper]

/-- C8 (counterexample): in the ZooKeeper transport the claim's cadence
fails — with one active application and two elapsed ticks the transport
publishes a single record (its output is the same as with no ticks at
all), not the one-record-per-app-per-tick the claim requires. -/
theorem zk_heartbeat_single_pass_cex :
    doHeartbeats "zookeeper" "host1" "linux" "4" "t0" ["app1"] ["t1", "t2"] =
      doHeartbeats "zookeeper" "host1" "linux" "4" "t0" ["app1"] [] ∧
    (doHeartbeatsThroughZooKeeper "host1" "linux" "4" "t0" ["app1"]).length = 1 ∧
    (["t1", "t2"].length * ["app1"].length ≠ 1) := by
  exact ⟨rfl, rfl, by decide⟩

/-- C10: `NewSnowDataReader` returns a null reader exactly when one of
`Endpoint`, `TimestampField` or `NextRecordTime` is absent from the
additional configuration — `RecordCount` is not validated — and when
the `RecordCount` string does not parse as an integer, `Atoi`'s ignored
error leaves the page-size limit at zero, so the tie-saturation guard
never triggers: `removeCollectedRecords` always reports
`refreshed = false`. -/
theorem constructor_validation_gap :
    (∀ config : GoStrMap,
      NewSnowDataReader config = none ↔
        (hasKey config endpointKey = false ∨ hasKey config timestampFieldKey = false ∨
         hasKey config nextRecordTimeKey = false)) ∧
    (∀ (config : GoStrMap) (state : CollectionState) (stored : Option CollectionState)
        (records : List JItem),
      atoi (mlookup config recordCountKey) = none →
      ∃ l s, removeCollectedRecords config state stored records = .ok l false s) := by
  constructor
  · intro config
    unfold NewSnowDataReader
    split
    next hc =>
      simp only [Bool.and_eq_true] at hc
      simp [hc.1.1, hc.1.2, hc.2]
    next hc =>
      simp only [Bool.and_eq_true, not_and] at hc
      refine ⟨fun _ => ?_, fun _ => rfl⟩
      cases he : hasKey config endpointKey with
      | false => exact Or.inl rfl
      | true =>
        cases ht : hasKey config timestampFieldKey with
        | false => exact Or.inr (Or.inl rfl)
        | true =>
          cases hn : hasKey config nextRecordTimeKey with
          | false => exact Or.inr (Or.inr rfl)
          | true => exact absurd hn (hc ⟨he, ht⟩)
  · intro config state stored records h
    unfold removeCollectedRecords
    simp only [h, Option.getD_none]
    split
    next => exact ⟨records, _, rfl⟩
    next ck heq =>
      split
      next => exact ⟨records, _, rfl⟩
      next hcond =>
        rw [if_neg]
        · exact ⟨_, _, rfl⟩
        · intro habs
          apply hcond
          have : records.length = 0 := by exact_mod_cast habs
          simp [this]

/-- C10 (witness): a configuration holding the three validated keys but
no `RecordCount` passes construction, and its unparseable (empty)
`RecordCount` keeps the guard from ever refreshing. -/
theorem constructor_validation_gap_witness :
    ∃ l s,
      removeCollectedRecords
        [("Endpoint", "incident"), ("TimestampField", "ts"),
         ("NextRecordTime", "2020-01-01 00:00:00")]
        ⟨"1", "2020-01-01 00:00:00", ["x"]⟩ none [JItem.obj []] = .ok l false s :=
  constructor_validation_gap.2 _ _ _ _ (by decide)

theorem doRemoveRecords_mk_filter (timefield cursor : String) (ltr : List String)
    (h : timefield ≠ "sys_id") (page : List (String × String)) :
    doRemoveRecords timefield (page.map (mkRecord timefield)) ltr cursor =
      (page.filter (fun p => !(p.2 == cursor && decide (p.1 ∈ ltr)))).map
        (mkRecord timefield) := by
  induction page with
  | nil => rfl
  | cons p rest ih =>
    simp only [List.map_cons, List.filter_cons, mkRecord, doRemoveRecords]
    rw [jlookup_mk_tf _ _ h, jlookup_mk_id]
    by_cases hts : p.2 = cursor
    · subst hts
      simp only [goAsString]
      by_cases hid : p.1 ∈ ltr
      · simp [hid, ih]
      · simp [hid, ih, mkRecord]
    · have hne : JValue.str p.2 ≠ JValue.str cursor := by simpa using hts
      simp [hne, hts, ih, mkRecord]

/-- C3: dedup partition — over any page of records with string ID and
timestamp fields (and a timestamp field name other than `sys_id`),
`doRemoveRecords` returns exactly the page minus the records whose
timestamp equals the checkpoint cursor and whose ID is listed in the
checkpoint's `LastTimeRecords`, in the original page order; in
particular no record that is listed and sits at the cursor timestamp is
ever returned for emission. -/
theorem dedup_partition (timefield cursor : String) (page : List (String × String))
    (ltr : List String) (h : timefield ≠ "sys_id") :
    doRemoveRecords timefield (page.map (mkRecord timefield)) ltr cursor =
      (page.filter (fun p => !(p.2 == cursor && decide (p.1 ∈ ltr)))).map
        (mkRecord timefield) ∧
    ∀ p : String × String, p.2 = cursor → p.1 ∈ ltr →
      mkRecord timefield p ∉
        doRemoveRecords timefield (page.map (mkRecord timefield)) ltr cursor := by
  refine ⟨doRemoveRecords_mk_filter timefield cursor ltr h page, ?_⟩
  intro p hts hid hin
  rw [doRemoveRecords_mk_filter timefield cursor ltr h page] at hin
  simp only [List.mem_map] at hin
  obtain ⟨q, hq, hmk⟩ := hin
  have hqp : q = p := by
    simpa [mkRecord, Prod.ext_iff] using hmk
  subst hqp
  rw [List.mem_filter] at hq
  simp [hts, hid] at hq

/-- C3 (witness): the spec's dedup scenario — checkpoint cursor
10:00:01 with committed IDs b and c; the new page re-delivers b and c
at 10:00:01 plus d at 10:00:02; only d survives. -/
theorem dedup_partition_witness :
    doRemoveRecords "ts"
        ([("b", "10:00:01"), ("c", "10:00:01"), ("d", "10:00:02")].map (mkRecord "ts"))
        ["b", "c"] "10:00:01" =
      ([("b", "10:00:01"), ("c", "10:00:01"), ("d", "10:00:02")].filter
        (fun p => !(p.2 == "10:00:01" && decide (p.1 ∈ (["b", "c"] : List String))))).map
        (mkRecord "ts") :=
  (dedup_partition "ts" "10:00:01"
    [("b", "10:00:01"), ("c", "10:00:01"), ("d", "10:00:02")] ["b", "c"] (by decide)).1

/-- C7 (amended): a record that fails to decode as a field map (the
`unknown format` case) is dropped by the dedup pass and processing
continues unchanged for every other record of the page; records merely
missing their ID or timestamp field are NOT dropped — they are kept
with the missing field read as null — and the cycle's checkpoint
computation panics on such a record in the trailing maximal-timestamp
group (see the counterexample). -/
theorem malformed_record_dropped (timefield cursor : String) (pre post : List JItem)
    (ltr : List String) :
    doRemoveRecords timefield (pre ++ JItem.nonobj :: post) ltr cursor =
      doRemoveRecords timefield (pre ++ post) ltr cursor := by
  induction pre with
  | nil => simp [doRemoveRecords]
  | cons a pre ih =>
    cases a with
    | nonobj => simpa [doRemoveRecords] using ih
    | obj r =>
      by_cases h1 : jlookup r timefield = JValue.str cursor
      · by_cases h2 : goAsString (jlookup r "sys_id") ∈ ltr
        · simp [doRemoveRecords, h1, h2, ih]
        · simp [doRemoveRecords, h1, h2, ih]
      · simp [doRemoveRecords, h1, ih]

/-- C7 (counterexample): a page whose only record lacks `sys_id` makes
the poll cycle panic in the checkpoint computation (the unchecked
`.(string)` assertion) instead of dropping the record and completing;
and a record lacking the timestamp field is not dropped by dedup at
all — it is kept for emission. -/
theorem integrity_missing_id_cex :
    IndexData [("TimestampField", "ts")] ⟨"", "", []⟩ none false
        (.ok ⟨some ⟨some [JItem.obj [("ts", JValue.str "2020-01-01 10:00:00")]], false⟩⟩)
        false false = .panicked ∧
    doRemoveRecords "ts" [JItem.obj [("sys_id", JValue.str "z")]] ["q"] "10:00:00" =
      [JItem.obj [("sys_id", JValue.str "z")]] := by
  exact ⟨rfl, rfl⟩

theorem getNextRecordTime_cached_state (config : GoStrMap) (state : CollectionState)
    (stored : Option CollectionState) (h : state.NextRecordTime ≠ "") :
    (getNextRecordTime config state stored).2 = state := by
  simp [getNextRecordTime, getCheckpoint, h]

theorem removeCollected_guard (config : GoStrMap) (state : CollectionState)
    (stored : Option CollectionState) (records : List JItem)
    (firstRecord lastRecord : List (String × JValue))
    (hcache : state.NextRecordTime ≠ "")
    (hltr : state.LastTimeRecords ≠ [])
    (hlen : (records.length : Int) = (atoi (mlookup config recordCountKey)).getD 0)
    (hfirst : records.head? = some (.obj firstRecord))
    (hlast : records.getLast? = some (.obj lastRecord))
    (hts : jlookup firstRecord (mlookup config timestampFieldKey)
            = jlookup lastRecord (mlookup config timestampFieldKey)) :
    removeCollectedRecords config state stored records =
      match parseTime state.NextRecordTime with
      | none => .ok [] false state
      | some t =>
        .ok (doRemoveRecords (mlookup config timestampFieldKey) records
              state.LastTimeRecords state.NextRecordTime) true
          { state with NextRecordTime := formatTime (addOneSecond t),
                       LastTimeRecords := [] } := by
  have hgc : getCheckpoint state stored = (some state, state) := by
    simp [getCheckpoint, hcache]
  have hrecne : records ≠ [] := by
    intro habs
    subst habs
    simp at hfirst
  have hl1 : state.LastTimeRecords.length ≠ 0 := by simpa using hltr
  have hl2 : records.length ≠ 0 := by simpa using hrecne
  cases hp : parseTime state.NextRecordTime with
  | none =>
    simp [removeCollectedRecords, hgc, hl1, hl2, hlen, hfirst, hlast, hts, hp]
  | some t =>
    simp [removeCollectedRecords, hgc, hl1, hl2, hlen, hfirst, hlast, hts, hp]

/-- C1 (amended): the tie-saturation guard fires only when the previous
checkpoint's `LastTimeRecords` is non-empty and its `NextRecordTime`
parses; when a page of exactly `RecordCount` records has its first and
last record sharing a timestamp, `removeCollectedRecords` reports
`refreshed = true`, clears the cached `LastTimeRecords`, and advances
the cached `NextRecordTime` by exactly one second past the CHECKPOINT
cursor — which equals one second past the page's shared timestamp only
when the two coincide. -/
theorem tie_saturation_amended (config : GoStrMap) (state : CollectionState)
    (stored : Option CollectionState) (records : List JItem)
    (firstRecord lastRecord : List (String × JValue)) (t : SnowTime)
    (hcache : state.NextRecordTime ≠ "")
    (hltr : state.LastTimeRecords ≠ [])
    (hlen : (records.length : Int) = (atoi (mlookup config recordCountKey)).getD 0)
    (hfirst : records.head? = some (.obj firstRecord))
    (hlast : records.getLast? = some (.obj lastRecord))
    (hts : jlookup firstRecord (mlookup config timestampFieldKey)
            = jlookup lastRecord (mlookup config timestampFieldKey))
    (hparse : parseTime state.NextRecordTime = some t) :
    removeCollectedRecords config state stored records =
      .ok (doRemoveRecords (mlookup config timestampFieldKey) records
            state.LastTimeRecords state.NextRecordTime) true
        { state with NextRecordTime := formatTime (addOneSecond t),
                     LastTimeRecords := [] } := by
  rw [removeCollected_guard config state stored records firstRecord lastRecord
    hcache hltr hlen hfirst hlast hts, hparse]

/-- C1 (witness): a full one-record page at the checkpoint cursor with
a parseable cursor refreshes the state to one second later. -/
theorem tie_saturation_amended_witness :
    removeCollectedRecords [("TimestampField", "ts"), ("RecordCount", "1")]
        ⟨"1", "2020-01-01 10:00:00", ["x"]⟩ none
        [JItem.obj [("sys_id", JValue.str "a"), ("ts", JValue.str "2020-01-01 10:00:00")]] =
      .ok (doRemoveRecords "ts"
            [JItem.obj [("sys_id", JValue.str "a"), ("ts", JValue.str "2020-01-01 10:00:00")]]
            ["x"] "2020-01-01 10:00:00")
        true ⟨"1", "2020-01-01 10:00:01", []⟩ := by
  exact tie_saturation_amended [("TimestampField", "ts"), ("RecordCount", "1")]
    ⟨"1", "2020-01-01 10:00:00", ["x"]⟩ none
    [JItem.obj [("sys_id", JValue.str "a"), ("ts", JValue.str "2020-01-01 10:00:00")]]
    [("sys_id", JValue.str "a"), ("ts", JValue.str "2020-01-01 10:00:00")]
    [("sys_id", JValue.str "a"), ("ts", JValue.str "2020-01-01 10:00:00")]
    ⟨2020, 1, 1, 10, 0, 0⟩ (by decide) (by decide) (by decide) rfl rfl rfl (by decide)

/-- C1 (counterexample): checkpoint cursor 10:00:00 with a pending tie
ID, full page of two records all at the shared timestamp T = 10:00:05;
the guard fires but the new cursor is 10:00:01 — one second past the
checkpoint cursor, NOT one second past T (which would be 10:00:06), so
the claim's `NextRecordTime` strictly greater than T fails. -/
theorem tie_saturation_claim_cex :
    removeCollectedRecords [("TimestampField", "ts"), ("RecordCount", "2")]
        ⟨"1", "2020-01-01 10:00:00", ["x"]⟩ none
        [JItem.obj [("sys_id", JValue.str "a"), ("ts", JValue.str "2020-01-01 10:00:05")],
         JItem.obj [("sys_id", JValue.str "b"), ("ts", JValue.str "2020-01-01 10:00:05")]] =
      .ok [JItem.obj [("sys_id", JValue.str "a"), ("ts", JValue.str "2020-01-01 10:00:05")],
           JItem.obj [("sys_id", JValue.str "b"), ("ts", JValue.str "2020-01-01 10:00:05")]]
        true ⟨"1", "2020-01-01 10:00:01", []⟩ ∧
    ("2020-01-01 10:00:01" : String) ≠ "2020-01-01 10:00:06" := by
  exact ⟨rfl, by decide⟩

/-- C4 (amended): when the tie-saturation guard fires and the
checkpoint cursor fails to parse, the cycle emits no records, writes no
checkpoint and leaves the cached state unchanged — but the failure is
only logged: `IndexData` returns a NIL error, not a non-nil one. -/
theorem parse_failure_swallowed (config : GoStrMap) (state : CollectionState)
    (stored : Option CollectionState) (records : List JItem)
    (firstRecord lastRecord : List (String × JValue)) (writerFails ckWriteFails : Bool)
    (hcache : state.NextRecordTime ≠ "")
    (hltr : state.LastTimeRecords ≠ [])
    (hlen : (records.length : Int) = (atoi (mlookup config recordCountKey)).getD 0)
    (hfirst : records.head? = some (.obj firstRecord))
    (hlast : records.getLast? = some (.obj lastRecord))
    (hts : jlookup firstRecord (mlookup config timestampFieldKey)
            = jlookup lastRecord (mlookup config timestampFieldKey))
    (hparse : parseTime state.NextRecordTime = none) :
    IndexData config state stored false (.ok ⟨some ⟨some records, false⟩⟩)
        writerFails ckWriteFails =
      .done false [] none state := by
  have hrem := removeCollected_guard config state stored records firstRecord lastRecord
    hcache hltr hlen hfirst hlast hts
  rw [hparse] at hrem
  simp [IndexData, CollectData,
    getNextRecordTime_cached_state config state stored hcache, hrem]

/-- C4 (witness): an unparseable cursor on a saturated page yields a
cycle with no emission, no checkpoint write and a nil error. -/
theorem parse_failure_swallowed_witness :
    IndexData [("TimestampField", "ts"), ("RecordCount", "1")]
        ⟨"1", "not-a-time", ["x"]⟩ none false
        (.ok ⟨some ⟨some [JItem.obj [("sys_id", JValue.str "a"),
                                     ("ts", JValue.str "2020-01-01 10:00:05")]], false⟩⟩)
        false false =
      .done false [] none ⟨"1", "not-a-time", ["x"]⟩ := by
  exact parse_failure_swallowed [("TimestampField", "ts"), ("RecordCount", "1")]
    ⟨"1", "not-a-time", ["x"]⟩ none
    [JItem.obj [("sys_id", JValue.str "a"), ("ts", JValue.str "2020-01-01 10:00:05")]]
    [("sys_id", JValue.str "a"), ("ts", JValue.str "2020-01-01 10:00:05")]
    [("sys_id", JValue.str "a"), ("ts", JValue.str "2020-01-01 10:00:05")]
    false false (by decide) (by decide) (by decide) rfl rfl rfl (by decide)

/-- C4 (counterexample): the same saturated-page, unparseable-cursor
cycle returns `isErr = false` — the error never surfaces to the caller
of `IndexData`, contradicting the claim's non-nil error. -/
theorem parse_failure_error_cex :
    IndexData [("TimestampField", "ts"), ("RecordCount", "2")]
        ⟨"1", "not-a-time", ["x"]⟩ none false
        (.ok ⟨some ⟨some [JItem.obj [("sys_id", JValue.str "a"),
                                     ("ts", JValue.str "2020-01-01 10:00:05")],
                          JItem.obj [("sys_id", JValue.str "b"),
                                     ("ts", JValue.str "2020-01-01 10:00:05")]], false⟩⟩)
        false false =
      .done false [] none ⟨"1", "not-a-time", ["x"]⟩ := by
  exact rfl

theorem goMaxTsLoop_mk (timefield T : String) (h : timefield ≠ "sys_id")
    (l : List (String × String)) :
    goMaxTsLoop timefield (.str T) (l.map (mkRecord timefield)) =
      some ((l.takeWhile (fun p => p.2 == T)).map Prod.fst) := by
  induction l with
  | nil => rfl
  | cons p rest ih =>
    simp only [List.map_cons, mkRecord, goMaxTsLoop, List.takeWhile_cons]
    rw [jlookup_mk_tf _ _ h]
    by_cases hts : p.2 = T
    · rw [if_pos (by rw [hts]), jlookup_mk_id]
      simp [hts, ih]
    · rw [if_neg (by simpa using hts)]
      simp [hts]

theorem goMaxTsLoop_mk_isSome (timefield T : String) (l : List (String × String)) :
    ∃ ids, goMaxTsLoop timefield (.str T) (l.map (mkRecord timefield)) = some ids := by
  induction l with
  | nil => exact ⟨[], rfl⟩
  | cons p rest ih =>
    obtain ⟨ids, hids⟩ := ih
    obtain ⟨v, hv⟩ := jlookup_mk_tf_str timefield p
    simp only [List.map_cons, mkRecord, goMaxTsLoop]
    rw [hv]
    by_cases hts : JValue.str v = JValue.str T
    · rw [if_pos hts, jlookup_mk_id]
      exact ⟨p.1 :: ids, by rw [hids]; rfl⟩
    · rw [if_neg hts]
      exact ⟨[], rfl⟩

/-- C2 (amended): the checkpoint `writeCheckpoint` builds is computed
from the record list it is handed — which, in `IndexData`, is the
DEDUPLICATED emission list, not the original fetched page:
`NextRecordTime` = the timestamp of the last record of that list, and
`LastTimeRecords` = the IDs of its records sharing that maximal
timestamp, collected scanning from the end backward until the timestamp
changes. The two coincide with the claim's original-page reading only
when dedup removed nothing. -/
theorem checkpoint_from_emitted_records (config : GoStrMap)
    (page : List (String × String)) (lastRec : String × String)
    (state : CollectionState)
    (h : mlookup config timestampFieldKey ≠ "sys_id")
    (hlast : page.getLast? = some lastRec) :
    writeCheckpoint config (page.map (mkRecord (mlookup config timestampFieldKey)))
        false false state =
      .ok false
        (some ⟨"1", lastRec.2,
          (page.reverse.takeWhile (fun p => p.2 == lastRec.2)).map Prod.fst⟩)
        ⟨"1", lastRec.2,
          (page.reverse.takeWhile (fun p => p.2 == lastRec.2)).map Prod.fst⟩ := by
  have hne : page ≠ [] := by
    intro habs
    subst habs
    simp at hlast
  have hl2 : (page.map (mkRecord (mlookup config timestampFieldKey))).getLast? =
      some (mkRecord (mlookup config timestampFieldKey) lastRec) := by
    rw [getLast?_map_list, hlast]
    rfl
  have hrev : (page.map (mkRecord (mlookup config timestampFieldKey))).reverse =
      page.reverse.map (mkRecord (mlookup config timestampFieldKey)) :=
    (List.map_reverse _ _).symm
  unfold writeCheckpoint
  rw [if_neg (by simpa [List.length_eq_zero] using hne)]
  rw [hl2]
  simp only [mkRecord]
  rw [jlookup_mk_tf _ _ h, hrev, goMaxTsLoop_mk _ _ h]
  rfl

/-- C2 (witness): the spec's boundary scenario — page a\@10:00:00,
b\@10:00:01, c\@10:00:01 with nothing deduplicated — yields checkpoint
cursor 10:00:01 and tie IDs `[c, b]` in backward-scan order. -/
theorem checkpoint_from_emitted_records_witness :
    writeCheckpoint [("TimestampField", "ts")]
        ([("a", "10:00:00"), ("b", "10:00:01"), ("c", "10:00:01")].map (mkRecord "ts"))
        false false ⟨"", "", []⟩ =
      .ok false (some ⟨"1", "10:00:01", ["c", "b"]⟩) ⟨"1", "10:00:01", ["c", "b"]⟩ := by
  exact checkpoint_from_emitted_records [("TimestampField", "ts")]
    [("a", "10:00:00"), ("b", "10:00:01"), ("c", "10:00:01")] ("c", "10:00:01")
    ⟨"", "", []⟩ (by decide) rfl

/-- C2 (counterexample): checkpoint cursor 10:00:00 with committed ID
b; the page re-delivers a and b at 10:00:00; b is deduplicated away, so
the cycle writes `LastTimeRecords = [a]` — but the original page's
maximal-timestamp scan is `[b, a]`, so the claim's checkpoint (IDs of
ALL original-page records at the maximal timestamp) differs even as a
set: b is missing from what is written. -/
theorem checkpoint_original_page_cex :
    IndexData [("TimestampField", "ts"), ("RecordCount", "5")]
        ⟨"1", "2020-01-01 10:00:00", ["b"]⟩ none false
        (.ok ⟨some ⟨some
          [JItem.obj [("sys_id", JValue.str "a"), ("ts", JValue.str "2020-01-01 10:00:00")],
           JItem.obj [("sys_id", JValue.str "b"), ("ts", JValue.str "2020-01-01 10:00:00")]],
          false⟩⟩)
        false false =
      .done false
        [JItem.obj [("sys_id", JValue.str "a"), ("ts", JValue.str "2020-01-01 10:00:00")]]
        (some ⟨"1", "2020-01-01 10:00:00", ["a"]⟩) ⟨"1", "2020-01-01 10:00:00", ["a"]⟩ ∧
    goMaxTsLoop "ts" (JValue.str "2020-01-01 10:00:00")
        ([JItem.obj [("sys_id", JValue.str "a"), ("ts", JValue.str "2020-01-01 10:00:00")],
          JItem.obj [("sys_id", JValue.str "b"), ("ts", JValue.str "2020-01-01 10:00:00")]].reverse) =
      some ["b", "a"] ∧
    ("b" ∈ (["b", "a"] : List String)) ∧ ("b" ∉ (["a"] : List String)) := by
  exact ⟨rfl, rfl, by decide, by decide⟩

/-- C5 (amended): `writeCheckpoint` itself is atomic on a failing
durable write — it returns the error, writes nothing, and performs no
in-memory state mutation of its own, for refreshed and non-refreshed
cycles alike; but in a refreshed (tie-saturation) cycle the in-memory
cursor was already advanced by `removeCollectedRecords` before the
write was attempted, so the cycle as a whole does not leave the cached
state unchanged (see the counterexample). -/
theorem checkpoint_write_failure_state (config : GoStrMap)
    (p : String × String) (rest : List (String × String))
    (refreshed : Bool) (state : CollectionState) :
    writeCheckpoint config
        ((p :: rest).map (mkRecord (mlookup config timestampFieldKey)))
        refreshed true state =
      .ok true none state := by
  obtain ⟨lp, hlp⟩ := cons_getLast?_some p rest
  have hl2 : ((p :: rest).map (mkRecord (mlookup config timestampFieldKey))).getLast? =
      some (mkRecord (mlookup config timestampFieldKey) lp) := by
    rw [getLast?_map_list, hlp]
    rfl
  have hrev : ((p :: rest).map (mkRecord (mlookup config timestampFieldKey))).reverse =
      (p :: rest).reverse.map (mkRecord (mlookup config timestampFieldKey)) :=
    (List.map_reverse _ _).symm
  obtain ⟨v, hv⟩ := jlookup_mk_tf_str (mlookup config timestampFieldKey) lp
  obtain ⟨ids, hids⟩ :=
    goMaxTsLoop_mk_isSome (mlookup config timestampFieldKey) v (p :: rest).reverse
  unfold writeCheckpoint
  rw [if_neg (by simp)]
  rw [hl2]
  simp only [mkRecord]
  rw [hv, hrev, hids]
  rfl

/-- C5 (counterexample): a tie-saturation cycle whose durable
checkpoint write fails — `IndexData` surfaces the error and writes
nothing, but the job's cached state has already moved from cursor
10:00:00 to 10:00:01 with its tie IDs cleared, so the previously
committed in-memory state is NOT left unchanged. -/
theorem checkpoint_write_failure_cex :
    IndexData [("TimestampField", "ts"), ("RecordCount", "2")]
        ⟨"1", "2020-01-01 10:00:00", ["x"]⟩ none false
        (.ok ⟨some ⟨some
          [JItem.obj [("sys_id", JValue.str "a"), ("ts", JValue.str "2020-01-01 10:00:00")],
           JItem.obj [("sys_id", JValue.str "b"), ("ts", JValue.str "2020-01-01 10:00:00")]],
          false⟩⟩)
        false true =
      .done true
        [JItem.obj [("sys_id", JValue.str "a"), ("ts", JValue.str "2020-01-01 10:00:00")],
         JItem.obj [("sys_id", JValue.str "b"), ("ts", JValue.str "2020-01-01 10:00:00")]]
        none ⟨"1", "2020-01-01 10:00:01", []⟩ ∧
    (⟨"1", "2020-01-01 10:00:01", []⟩ : CollectionState) ≠
      ⟨"1", "2020-01-01 10:00:00", ["x"]⟩ := by
  exact ⟨rfl, by decide⟩

/-- C9 (amended): a null Job from the factory does not crash, but it
makes `handleTasks` RETURN rather than continue: the offending task and
every remaining task of that batch are abandoned (the state already
accumulated from earlier records is kept, and the rest of the system is
unaffected); only decode failures and missing application-type keys are
skipped with `continue`. -/
theorem null_job_returns (createJob : String → GoStrMap → Option Nat)
    (host : String) (meta tc : GoStrMap) (rest : List (Option GoStrMap))
    (st : CsState)
    (hmeta : hasKey meta baseHost = true)
    (hhost : mlookup meta baseHost = host)
    (happ : hasKey tc baseApp = true)
    (hmiss : st.jobs.lookup (mlookup tc taskConfigKey) = none)
    (hnil : createJob (mlookup tc baseApp) tc = none) :
    handleTasks createJob host ⟨meta, some tc :: rest⟩ st = st := by
  simp [handleTasks, handleTasksLoop, hmeta, hhost, happ, hmiss, hnil]

/-- C9 (witness): a batch whose first record names an unknown
application type is abandoned wholesale, leaving the job cache and
callback log untouched. -/
theorem null_job_returns_witness :
    handleTasks (fun app _ => if app = "good" then some 1 else none) "h1"
        ⟨[("Host", "h1")],
         [some [("App", "bad"), ("TaskConfig", "k1")],
          some [("App", "good"), ("TaskConfig", "k2")]]⟩
        ⟨[], [], []⟩ = ⟨[], [], []⟩ := by
  exact null_job_returns (fun app _ => if app = "good" then some 1 else none) "h1"
    [("Host", "h1")] [("App", "bad"), ("TaskConfig", "k1")]
    [some [("App", "good"), ("TaskConfig", "k2")]]
    ⟨[], [], []⟩ rfl rfl rfl rfl rfl

/-- C9 (counterexample): the same two-task batch — an unknown-type task
followed by a valid one — produces no job and no callback at all, while
the valid task alone would have been cached, started and called back;
so processing does NOT continue for the remaining tasks of the batch. -/
theorem null_job_batch_abort_cex :
    handleTasks (fun app _ => if app = "good" then some 1 else none) "h1"
        ⟨[("Host", "h1")],
         [some [("App", "bad"), ("TaskConfig", "k1")],
          some [("App", "good"), ("TaskConfig", "k2")]]⟩
        ⟨[], [], []⟩ = ⟨[], [], []⟩ ∧
    handleTasks (fun app _ => if app = "good" then some 1 else none) "h1"
        ⟨[("Host", "h1")], [some [("App", "good"), ("TaskConfig", "k2")]]⟩
        ⟨[], [], []⟩ = ⟨[("k2", 1)], [1], [1]⟩ := by
  exact ⟨rfl, rfl⟩
